import Mathlib

/-!
Verification of the cldcde orchestration system against its specification.

The Rust sources are shallowly embedded: `f64` values become `ℚ`, the
unsigned machine integers (`u32`, `u64`) become `Nat` (Rust's
`saturating_sub` coincides with truncated `Nat` subtraction), `DashMap`
and `HashMap` collections become association lists, `Option`-shaped
fallibility stays `Option`.  Wall-clock fields (`DateTime<Utc>`) carry no
information relevant to any verified property and are omitted from the
embedded records; each omission is noted at the definition it concerns.
-/

namespace Orchestrator

/-- Workflow priority, from `master-orchestrator/src/lib.rs` (`WorkflowPriority`,
discriminants Critical = 4, High = 3, Medium = 2, Low = 1). -/
inductive WorkflowPriority where
  | Critical
  | High
  | Medium
  | Low
deriving DecidableEq, BEq, Repr

/-- Workflow status, from `master-orchestrator/src/lib.rs` (`WorkflowStatus`). -/
inductive WorkflowStatus where
  | Queued
  | Planning
  | Requirements
  | Design
  | Tasks
  | Execute
  | Completed
  | Failed
  | Paused
deriving DecidableEq, BEq, Repr

/-- One utilization snapshot, from `resource_manager.rs` (`ResourceSnapshot`);
the `timestamp` field is omitted (wall clock). -/
structure ResourceSnapshot where
  cpu_utilization : ℚ
  memory_utilization : ℚ
  agent_count : Nat
  workflow_count : Nat
deriving DecidableEq, Repr

/-- The resource ledger, from `resource_manager.rs` (`ResourceState`); the
`last_updated` field is omitted (wall clock). -/
structure ResourceState where
  total_cpu_cores : ℚ
  available_cpu_cores : ℚ
  total_memory_mb : Nat
  available_memory_mb : Nat
  active_agents : Nat
  max_agents : Nat
  active_workflows : Nat
  max_workflows : Nat
  utilization_history : List ResourceSnapshot
deriving DecidableEq, Repr

/-- A resource request, from `resource_manager.rs` (`ResourceRequest`). -/
structure ResourceRequest where
  workflow_id : Nat
  cpu_cores : ℚ
  memory_mb : Nat
  agent_count : Nat
  estimated_duration_hours : ℚ
  priority : WorkflowPriority
deriving DecidableEq, Repr

/-- A granted allocation, from `resource_manager.rs` (`ResourceAllocation`);
`allocated_at` and `expires_at` are omitted (wall clock). -/
structure ResourceAllocation where
  workflow_id : Nat
  allocated_cpu : ℚ
  allocated_memory : Nat
  allocated_agents : Nat
deriving DecidableEq, Repr

/-- `ResourceManager::can_allocate_workflow` (resource_manager.rs:159-165):
admission requires workflow headroom, at least one free CPU core and at
least 512 MB of free memory. -/
def can_allocate_workflow (s : ResourceState) : Bool :=
  decide (s.active_workflows < s.max_workflows) &&
  decide ((1 : ℚ) ≤ s.available_cpu_cores) &&
  decide (512 ≤ s.available_memory_mb)

/-- `ResourceManager::allocate_resources` (resource_manager.rs:167-202):
deny when the request exceeds any headroom, otherwise debit the ledger
and return the allocation together with the updated state. -/
def allocate_resources (s : ResourceState) (r : ResourceRequest) :
    Option (ResourceAllocation × ResourceState) :=
  if s.available_cpu_cores < r.cpu_cores ∨
     s.available_memory_mb < r.memory_mb ∨
     s.active_agents + r.agent_count > s.max_agents ∨
     s.active_workflows ≥ s.max_workflows then
    none
  else
    some ({ workflow_id := r.workflow_id
            allocated_cpu := r.cpu_cores
            allocated_memory := r.memory_mb
            allocated_agents := r.agent_count },
          { s with
            available_cpu_cores := s.available_cpu_cores - r.cpu_cores
            available_memory_mb := s.available_memory_mb - r.memory_mb
            active_agents := s.active_agents + r.agent_count
            active_workflows := s.active_workflows + 1 })

/-- `ResourceManager::deallocate_resources` (resource_manager.rs:204-218):
credit the ledger back; the two counters use `saturating_sub`, which is
`Nat` subtraction. -/
def deallocate_resources (s : ResourceState) (a : ResourceAllocation) : ResourceState :=
  { s with
    available_cpu_cores := s.available_cpu_cores + a.allocated_cpu
    available_memory_mb := s.available_memory_mb + a.allocated_memory
    active_agents := s.active_agents - a.allocated_agents
    active_workflows := s.active_workflows - 1 }

/-- `ResourceManager::scale` (resource_manager.rs:221-232): reset the maxima. -/
def scale (s : ResourceState) (target_workflows max_agents_per_workflow : Nat) : ResourceState :=
  { s with
    max_workflows := target_workflows
    max_agents := target_workflows * max_agents_per_workflow }

/-- `ResourceManager::update_resource_metrics` (resource_manager.rs:128-157):
recompute availability from sampled utilizations (the Rust `as u64` cast
truncates the float, hence `Int.floor` then `Int.toNat`), append a
snapshot, and trim the history to 100 entries (push at the back, drop at
the front). -/
def update_resource_metrics (s : ResourceState) (current_cpu current_memory : ℚ) :
    ResourceState :=
  let s1 := { s with
    available_cpu_cores := s.total_cpu_cores * (1 - current_cpu)
    available_memory_mb := (Int.floor ((s.total_memory_mb : ℚ) * (1 - current_memory))).toNat }
  let history := s1.utilization_history ++
    [{ cpu_utilization := current_cpu
       memory_utilization := current_memory
       agent_count := s1.active_agents
       workflow_count := s1.active_workflows }]
  { s1 with utilization_history := if history.length > 100 then history.tail else history }

end Orchestrator

namespace Coordinator

/-- The five workflow phases, from `workflow-coordinator/src/lib.rs`
(`WorkflowPhase`). -/
inductive WorkflowPhase where
  | Planning
  | Requirements
  | Design
  | Tasks
  | Execute
deriving DecidableEq, BEq, Repr

/-- Planning-phase requirement flags (`phase_manager.rs`). -/
structure PlanningRequirements where
  objectives_defined : Bool
  scope_documented : Bool
  stakeholders_identified : Bool
  timeline_estimated : Bool
deriving DecidableEq, Repr

/-- Requirements-phase requirement data (`phase_manager.rs`); the two
counters are `u32` in the source. -/
structure RequirementsPhaseRequirements where
  ears_format_used : Bool
  functional_requirements : Nat
  non_functional_requirements : Nat
  acceptance_criteria_defined : Bool
deriving DecidableEq, Repr

/-- Design-phase requirement flags (`phase_manager.rs`). -/
structure DesignRequirements where
  architecture_documented : Bool
  components_identified : Bool
  interfaces_defined : Bool
  data_flow_mapped : Bool
deriving DecidableEq, Repr

/-- Tasks-phase requirement flags (`phase_manager.rs`). -/
structure TasksRequirements where
  tasks_broken_down : Bool
  acceptance_criteria_per_task : Bool
  dependencies_mapped : Bool
  effort_estimated : Bool
deriving DecidableEq, Repr

/-- Execute-phase requirement flags (`phase_manager.rs`). -/
structure ExecuteRequirements where
  tdd_cycle_followed : Bool
  tests_written_first : Bool
  code_reviewed : Bool
  refactoring_completed : Bool
deriving DecidableEq, Repr

/-- All per-phase requirements (`phase_manager.rs`, `PhaseRequirements`). -/
structure PhaseRequirements where
  planning : PlanningRequirements
  requirements : RequirementsPhaseRequirements
  design : DesignRequirements
  tasks : TasksRequirements
  execute : ExecuteRequirements
deriving DecidableEq, Repr

/-- `PlanningRequirements::all_met` (phase_manager.rs:239-243). -/
def PlanningRequirements.all_met (r : PlanningRequirements) : Bool :=
  r.objectives_defined && r.scope_documented &&
  r.stakeholders_identified && r.timeline_estimated

/-- `RequirementsPhaseRequirements::all_met` (phase_manager.rs:246-250). -/
def RequirementsPhaseRequirements.all_met (r : RequirementsPhaseRequirements) : Bool :=
  r.ears_format_used && decide (r.functional_requirements > 0) &&
  decide (r.non_functional_requirements > 0) && r.acceptance_criteria_defined

/-- `DesignRequirements::all_met` (phase_manager.rs:253-257). -/
def DesignRequirements.all_met (r : DesignRequirements) : Bool :=
  r.architecture_documented && r.components_identified &&
  r.interfaces_defined && r.data_flow_mapped

/-- `TasksRequirements::all_met` (phase_manager.rs:260-264). -/
def TasksRequirements.all_met (r : TasksRequirements) : Bool :=
  r.tasks_broken_down && r.acceptance_criteria_per_task &&
  r.dependencies_mapped && r.effort_estimated

/-- `ExecuteRequirements::all_met` (phase_manager.rs:267-271). -/
def ExecuteRequirements.all_met (r : ExecuteRequirements) : Bool :=
  r.tdd_cycle_followed && r.tests_written_first &&
  r.code_reviewed && r.refactoring_completed

/-- The phase-manager state (`phase_manager.rs`, `PhaseState`); the
`phase_history`, `completion_criteria` and `outputs_generated` fields are
omitted — they are write-only logs of strings and timestamps that no
verified operation reads back. -/
structure PhaseState where
  current_phase : WorkflowPhase
  phase_requirements : PhaseRequirements
deriving DecidableEq, Repr

/-- `PhaseManager::can_transition_to` (phase_manager.rs:127-151): the
current phase's requirements must be met and the transition must be an
adjacent forward step, or a re-entry into the same phase. -/
def can_transition_to (st : PhaseState) (target_phase : WorkflowPhase) : Bool :=
  let requirements_met :=
    match st.current_phase with
    | .Planning => st.phase_requirements.planning.all_met
    | .Requirements => st.phase_requirements.requirements.all_met
    | .Design => st.phase_requirements.design.all_met
    | .Tasks => st.phase_requirements.tasks.all_met
    | .Execute => st.phase_requirements.execute.all_met
  let valid_transition :=
    match st.current_phase, target_phase with
    | .Planning, .Requirements => true
    | .Requirements, .Design => true
    | .Design, .Tasks => true
    | .Tasks, .Execute => true
    | current, target => current == target
  requirements_met && valid_transition

/-- `PhaseManager::transition_to_phase` (phase_manager.rs:153-174),
restricted to the embedded fields: record the new current phase (the
source additionally appends to the omitted history/output logs). -/
def transition_to_phase (st : PhaseState) (target_phase : WorkflowPhase) : PhaseState :=
  { st with current_phase := target_phase }

/-- The requirements-met check of `can_transition_to`, named so the claim
can refer to it. -/
def phase_requirements_met (st : PhaseState) : Bool :=
  match st.current_phase with
  | .Planning => st.phase_requirements.planning.all_met
  | .Requirements => st.phase_requirements.requirements.all_met
  | .Design => st.phase_requirements.design.all_met
  | .Tasks => st.phase_requirements.tasks.all_met
  | .Execute => st.phase_requirements.execute.all_met

/-- Adjacent forward pairs of the pipeline
Planning → Requirements → Design → Tasks → Execute, as the spec words it. -/
def adjacentForward : WorkflowPhase → WorkflowPhase → Bool
  | .Planning, .Requirements => true
  | .Requirements, .Design => true
  | .Design, .Tasks => true
  | .Tasks, .Execute => true
  | _, _ => false

end Coordinator

namespace Orchestrator

/-- A managed workflow, from `workflow_manager.rs` (`ManagedWorkflow`),
embedded with the fields the scheduler reads: the info's id and status
and the dependency edges.  `coordinator_id`, `phase_history`,
`dependents`, `config` and `state_data` are omitted — no verified
operation reads them. -/
structure ManagedWorkflow where
  id : Nat
  status : WorkflowStatus
  dependencies : List Nat
deriving DecidableEq, Repr

/-- The workflow manager, from `workflow_manager.rs` (`WorkflowManager`):
the `DashMap` registry becomes an association list keyed by workflow id;
the `HashMap` of priority queues becomes a total function (an absent key
behaves exactly like an empty queue, matching the source's
`if let Some(queue)` skip).  `workflow_types` and the event channel are
omitted — the scheduler does not read them. -/
structure WorkflowManager where
  workflows : List (Nat × ManagedWorkflow)
  workflow_queue : WorkflowPriority → List Nat

/-- Registry lookup, `self.workflows.get(&id)`. -/
def WorkflowManager.getWorkflow (m : WorkflowManager) (id : Nat) : Option ManagedWorkflow :=
  (m.workflows.find? (fun p => p.1 == id)).map Prod.snd

/-- The dependency check shared by `get_ready_workflows`
(workflow_manager.rs:524-530) and `get_next_workflow_by_priority`
(workflow_manager.rs:548-556): every dependency must be `Completed`, and
a dependency id absent from the registry is considered completed (source
comment: "Dependency doesn't exist, consider it completed"). -/
def dependencies_satisfied (m : WorkflowManager) (w : ManagedWorkflow) : Bool :=
  w.dependencies.all fun dep_id =>
    match m.getWorkflow dep_id with
    | some dep => dep.status == WorkflowStatus.Completed
    | none => true

/-- `WorkflowManager::get_ready_workflows` (workflow_manager.rs:519-534). -/
def get_ready_workflows (m : WorkflowManager) : List Nat :=
  (m.workflows.filter fun entry =>
      entry.2.status == WorkflowStatus.Queued && dependencies_satisfied m entry.2).map
    fun entry => entry.2.id

/-- The per-entry readiness test of the scheduler's inner loop
(workflow_manager.rs:546-560): the entry must exist in the registry, be
`Queued`, and have its dependencies satisfied. -/
def queue_entry_ready (m : WorkflowManager) (workflow_id : Nat) : Bool :=
  match m.getWorkflow workflow_id with
  | some w => w.status == WorkflowStatus.Queued && dependencies_satisfied m w
  | none => false

/-- The scan of one priority queue: the first ready entry, if any. -/
def find_in_queue (m : WorkflowManager) (queue : List Nat) : Option Nat :=
  queue.find? (queue_entry_ready m)

/-- `WorkflowManager::get_next_workflow_by_priority`
(workflow_manager.rs:536-568): scan the Critical, High, Medium, Low
queues in that order and return the first ready entry. -/
def get_next_workflow_by_priority (m : WorkflowManager) : Option Nat :=
  match find_in_queue m (m.workflow_queue WorkflowPriority.Critical) with
  | some id => some id
  | none =>
    match find_in_queue m (m.workflow_queue WorkflowPriority.High) with
    | some id => some id
    | none =>
      match find_in_queue m (m.workflow_queue WorkflowPriority.Medium) with
      | some id => some id
      | none => find_in_queue m (m.workflow_queue WorkflowPriority.Low)

/-- A priority tier contains a ready queue entry. -/
def tier_has_ready (m : WorkflowManager) (p : WorkflowPriority) : Bool :=
  (m.workflow_queue p).any (queue_entry_ready m)

/-- Numeric priority rank — the Rust enum discriminants
(Critical = 4, High = 3, Medium = 2, Low = 1). -/
def priorityRank : WorkflowPriority → Nat
  | .Critical => 4
  | .High => 3
  | .Medium => 2
  | .Low => 1

/-- A registry holding a single `Queued` workflow (id 1) whose only listed
dependency (id 99) is absent from the registry; id 1 sits in the Low
queue. -/
def absentDepManager : WorkflowManager where
  workflows := [(1, { id := 1, status := WorkflowStatus.Queued, dependencies := [99] })]
  workflow_queue := fun p =>
    match p with
    | .Low => [1]
    | _ => []

/-- A registry holding a single dependency-free `Queued` workflow (id 1)
sitting in the High queue. -/
def readyHighManager : WorkflowManager where
  workflows := [(1, { id := 1, status := WorkflowStatus.Queued, dependencies := [] })]
  workflow_queue := fun p =>
    match p with
    | .High => [1]
    | _ => []

end Orchestrator

namespace Coordinator

/-- Results of the QualityAssurance deliverable checks
(quality_assurance.rs:357-410).  In the source each is a placeholder
method returning the constant `true` ("would check actual deliverables");
the embedding carries their results as data so the scoring logic is
verified for both outcomes, and `QualityChecks.defaults` below records
the source's constants. -/
structure QualityChecks where
  has_clear_objectives : Bool
  has_documented_scope : Bool
  uses_ears_format : Bool
  has_complete_requirements : Bool
  has_architecture_documentation : Bool
  has_proper_task_breakdown : Bool
  follows_tdd_cycle : Bool
  meets_code_quality_standards : Bool
deriving DecidableEq, Repr

/-- The constant results of the source's placeholder check methods. -/
def QualityChecks.defaults : QualityChecks where
  has_clear_objectives := true
  has_documented_scope := true
  uses_ears_format := true
  has_complete_requirements := true
  has_architecture_documentation := true
  has_proper_task_breakdown := true
  follows_tdd_cycle := true
  meets_code_quality_standards := true

/-- `QualityStandards::default().minimum_score` (quality_assurance.rs:449). -/
def default_minimum_score : ℚ := 75

/-- `validate_planning_phase` (quality_assurance.rs:174-214): −20 without
clear objectives, −15 without documented scope, floored at 0. -/
def validate_planning_phase (c : QualityChecks) : ℚ :=
  let score : ℚ := 100
  let score := if c.has_clear_objectives then score else score - 20
  let score := if c.has_documented_scope then score else score - 15
  max score 0

/-- `validate_requirements_phase` (quality_assurance.rs:216-252): −30
when requirements are not in EARS format, −25 when incomplete, floored
at 0. -/
def validate_requirements_phase (c : QualityChecks) : ℚ :=
  let score : ℚ := 100
  let score := if c.uses_ears_format then score else score - 30
  let score := if c.has_complete_requirements then score else score - 25
  max score 0

/-- `validate_design_phase` (quality_assurance.rs:254-275): −25 without
architecture documentation, floored at 0. -/
def validate_design_phase (c : QualityChecks) : ℚ :=
  let score : ℚ := 100
  let score := if c.has_architecture_documentation then score else score - 25
  max score 0

/-- `validate_tasks_phase` (quality_assurance.rs:277-298): −20 without a
proper task breakdown, floored at 0. -/
def validate_tasks_phase (c : QualityChecks) : ℚ :=
  let score : ℚ := 100
  let score := if c.has_proper_task_breakdown then score else score - 20
  max score 0

/-- `validate_execute_phase` (quality_assurance.rs:300-337): −30 when the
TDD cycle is not followed, −20 when code-quality standards are unmet,
floored at 0. -/
def validate_execute_phase (c : QualityChecks) : ℚ :=
  let score : ℚ := 100
  let score := if c.follows_tdd_cycle then score else score - 30
  let score := if c.meets_code_quality_standards then score else score - 20
  max score 0

/-- `QualityAssurance::validate_phase_completion`
(quality_assurance.rs:123-172): dispatch to the per-phase validator and
pass iff the score reaches the configured minimum.  Returned as
(passed, score); the bookkeeping writes to `phase_scores`,
`active_issues` and the metric counters are omitted — no verified
property reads them. -/
def validate_phase_completion (minimum_score : ℚ) (c : QualityChecks)
    (phase : WorkflowPhase) : Bool × ℚ :=
  let quality_score :=
    match phase with
    | .Planning => validate_planning_phase c
    | .Requirements => validate_requirements_phase c
    | .Design => validate_design_phase c
    | .Tasks => validate_tasks_phase c
    | .Execute => validate_execute_phase c
  (decide (quality_score ≥ minimum_score), quality_score)

/-- The coordinator events `transition_phase` can emit
(workflow-coordinator/src/lib.rs:185-206); payloads omitted. -/
inductive CoordinatorEvent where
  | PhaseTransitioned
  | QualityGatePassed
  | QualityGateFailed
deriving DecidableEq, Repr

/-- The coordinator data `transition_phase` reads: the phase-manager
state, the quality-check results and the configured minimum score. -/
structure CoordinatorState where
  phase_state : PhaseState
  checks : QualityChecks
  minimum_score : ℚ
deriving DecidableEq, Repr

/-- Result of a `transition_phase` call: the coordinator state afterwards,
the events sent on the event channel, and whether the call returned `Ok`. -/
structure TransitionOutcome where
  state : CoordinatorState
  events : List CoordinatorEvent
  ok : Bool
deriving DecidableEq, Repr

/-- `WorkflowCoordinator::transition_phase`
(workflow-coordinator/src/lib.rs:363-421): first the phase-manager check
(`can_transition_to`) — on failure return an error having emitted
nothing; then the quality gate on the *current* phase — on failure emit
`QualityGateFailed` and return an error; otherwise perform the
transition and emit `PhaseTransitioned` and `QualityGatePassed`. -/
def transition_phase (st : CoordinatorState) (target_phase : WorkflowPhase) :
    TransitionOutcome :=
  if can_transition_to st.phase_state target_phase = false then
    { state := st, events := [], ok := false }
  else
    let vp := validate_phase_completion st.minimum_score st.checks st.phase_state.current_phase
    if vp.1 = false then
      { state := st, events := [CoordinatorEvent.QualityGateFailed], ok := false }
    else
      { state := { st with phase_state := transition_to_phase st.phase_state target_phase }
        events := [CoordinatorEvent.PhaseTransitioned, CoordinatorEvent.QualityGatePassed]
        ok := true }

/-- A coordinator sitting in the Requirements phase whose EARS flag and
EARS check are false while every other requirement and check is
satisfied, with the default minimum score. -/
def earsMissingCoordinator : CoordinatorState where
  phase_state :=
    { current_phase := WorkflowPhase.Requirements
      phase_requirements :=
        { planning := { objectives_defined := true, scope_documented := true
                        stakeholders_identified := true, timeline_estimated := true }
          requirements := { ears_format_used := false, functional_requirements := 4
                            non_functional_requirements := 2,
                            acceptance_criteria_defined := true }
          design := { architecture_documented := true, components_identified := true
                      interfaces_defined := true, data_flow_mapped := true }
          tasks := { tasks_broken_down := true, acceptance_criteria_per_task := true
                     dependencies_mapped := true, effort_estimated := true }
          execute := { tdd_cycle_followed := true, tests_written_first := true
                       code_reviewed := true, refactoring_completed := true } } }
  checks := { QualityChecks.defaults with uses_ears_format := false }
  minimum_score := default_minimum_score

end Coordinator

namespace Orchestrator

/-- Decision types, from `leadership.rs` (`DecisionType`). -/
inductive DecisionType where
  | CrossWorkflowPriorities
  | SystemArchitecture
  | ResourceAllocation
  | BudgetPlanning
  | StrategicDirection
  | WorkflowExecution
  | TeamComposition
  | QualityStandards
  | TimelineManagement
  | AgentAssignment
  | TechnicalArchitecture
  | ProcessImplementation
  | QualityAssuranceStandards
  | SecurityCompliance
  | DeploymentStrategy
  | EmergencyEscalation
  | WorkflowShutdown
  | ResourceReallocation
deriving DecidableEq, BEq, Repr

/-- The decision matrix, from `leadership.rs` (`DecisionMatrix`); the two
per-actor authority maps are omitted — `escalate_decision` does not read
them.  The `HashMap` of escalation paths becomes an association list. -/
structure DecisionMatrix where
  master_authority : List DecisionType
  escalation_paths : List (DecisionType × List Nat)
deriving DecidableEq, Repr

/-- The leadership hierarchy, from `leadership.rs`
(`LeadershipHierarchy`); the coordinator and specialist registries are
omitted — `escalate_decision` does not read them. -/
structure LeadershipHierarchy where
  master_id : Nat
  decision_matrix : DecisionMatrix
deriving DecidableEq, Repr

/-- `LeadershipHierarchy::escalate_decision` (leadership.rs:319-332):
return the chain configured for the decision type, defaulting to the
one-element chain holding the master orchestrator. -/
def escalate_decision (h : LeadershipHierarchy) (decision_type : DecisionType)
    (_requesting_actor : Nat) : List Nat :=
  match h.decision_matrix.escalation_paths.find? (fun p => p.1 == decision_type) with
  | some p => p.2
  | none => [h.master_id]

/-- `DecisionMatrix::new_with_defaults` (leadership.rs:376-402): the two
configured escalation paths are explicitly empty vectors. -/
def DecisionMatrix.new_with_defaults : DecisionMatrix where
  master_authority :=
    [DecisionType.CrossWorkflowPriorities, DecisionType.SystemArchitecture,
     DecisionType.ResourceAllocation, DecisionType.BudgetPlanning,
     DecisionType.StrategicDirection, DecisionType.EmergencyEscalation]
  escalation_paths :=
    [(DecisionType.WorkflowExecution, []), (DecisionType.CrossWorkflowPriorities, [])]

/-- Orchestrator status, from `master-orchestrator/src/lib.rs`
(`OrchestratorStatus`). -/
inductive OrchestratorStatus where
  | Starting
  | Active
  | Scaling
  | Degraded
  | Shutdown
deriving DecidableEq, Repr

/-- Alert severity, from `leadership.rs` (`AlertSeverity`). -/
inductive AlertSeverity where
  | Low
  | Medium
  | High
  | Critical
deriving DecidableEq, Repr

/-- The orchestrator's aggregate state, from `master-orchestrator/src/lib.rs`
(`OrchestratorState`), restricted to the fields `cancel_workflow` and
`emergency_shutdown` write: status and the active/failed counters (all
the counters are `u64`).  The timestamps and load gauges are omitted. -/
structure OrchestratorState where
  status : OrchestratorStatus
  active_workflows : Nat
  failed_workflows : Nat
deriving DecidableEq, Repr

/-- A workflow registry entry, from `master-orchestrator/src/lib.rs`
(`WorkflowInfo`), restricted to id and status — `cancel_workflow` only
rewrites the status and completion time of the entry it has already
removed from the registry. -/
structure WorkflowInfo where
  id : Nat
  status : WorkflowStatus
deriving DecidableEq, Repr

/-- The `EmergencyAlert` event payload
(master-orchestrator/src/lib.rs:168-172); the message string is omitted. -/
structure EmergencyAlert where
  severity : AlertSeverity
  affected_workflows : List Nat
deriving DecidableEq, Repr

/-- The master orchestrator's registry and state
(master-orchestrator/src/lib.rs): the `DashMap` registry becomes an
association list keyed by workflow id. -/
structure MasterOrchestrator where
  workflows : List (Nat × WorkflowInfo)
  state : OrchestratorState
deriving DecidableEq, Repr

/-- `MasterOrchestrator::cancel_workflow`
(master-orchestrator/src/lib.rs:396-411): remove the entry from the
registry; when one was present, decrement the active counter
(`saturating_sub`) and increment the failed counter. -/
def cancel_workflow (o : MasterOrchestrator) (workflow_id : Nat) : MasterOrchestrator :=
  { workflows := o.workflows.filter (fun p => !(p.1 == workflow_id))
    state :=
      if o.workflows.any (fun p => p.1 == workflow_id) then
        { o.state with
          active_workflows := o.state.active_workflows - 1
          failed_workflows := o.state.failed_workflows + 1 }
      else o.state }

/-- `MasterOrchestrator::emergency_shutdown`
(master-orchestrator/src/lib.rs:427-448): mark the orchestrator
`Shutdown`, cancel every workflow id collected from the registry, then
emit a `Critical` `EmergencyAlert` whose `affected_workflows` are the
keys the registry holds *after* the cancellations. -/
def emergency_shutdown (o : MasterOrchestrator) : MasterOrchestrator × EmergencyAlert :=
  let o1 := { o with state := { o.state with status := OrchestratorStatus.Shutdown } }
  let workflow_ids := o1.workflows.map Prod.fst
  let o2 := workflow_ids.foldl cancel_workflow o1
  (o2, { severity := AlertSeverity.Critical
         affected_workflows := o2.workflows.map Prod.fst })

end Orchestrator

namespace Coordinator

/-- One communication record, from `communication.rs`
(`CommunicationRecord`), restricted to the fields `acknowledge_message`
reads and writes: the id and the acknowledged flag. -/
structure CommunicationRecord where
  id : Nat
  acknowledged : Bool
deriving DecidableEq, Repr

/-- The communication state, from `communication.rs`
(`CommunicationState` and `CommunicationMetrics`), restricted to the log
and the acknowledged-count metric (`u32` in the source); the other
metric counters, stakeholders and scheduled reports are omitted. -/
structure CommState where
  communication_log : List CommunicationRecord
  messages_acknowledged : Nat
deriving DecidableEq, Repr

/-- The mutation performed through
`communication_log.iter_mut().find(|r| r.id == message_id)`: set the
acknowledged flag of the first record with the given id. -/
def set_ack_first : List CommunicationRecord → Nat → List CommunicationRecord
  | [], _ => []
  | r :: rs, message_id =>
    if r.id == message_id then { r with acknowledged := true } :: rs
    else r :: set_ack_first rs message_id

/-- `CommunicationHub::acknowledge_message` (communication.rs:334-344):
when a record with the id exists, set its acknowledged flag and
increment `messages_acknowledged` — unconditionally, found records that
were already acknowledged included. -/
def acknowledge_message (st : CommState) (message_id : Nat) : CommState :=
  if st.communication_log.any (fun r => r.id == message_id) then
    { communication_log := set_ack_first st.communication_log message_id
      messages_acknowledged := st.messages_acknowledged + 1 }
  else st

/-- Agent status, from `agent_manager.rs` (`AgentStatus`). -/
inductive AgentStatus where
  | Assigned
  | Active
  | Busy
  | Idle
  | Paused
  | Completed
  | Failed
deriving DecidableEq, Repr

/-- A managed agent, from `agent_manager.rs` (`ManagedAgent`); the
performance metrics and tmux fields are omitted — no verified operation
reads them. -/
structure ManagedAgent where
  id : Nat
  role : String
  status : AgentStatus
  assigned_tasks : List String
deriving DecidableEq, Repr

/-- The agent roster: the manager's `DashMap` as an association list. -/
abbrev AgentRoster := List (Nat × ManagedAgent)

/-- `DashMap::insert`: replace the entry with the key, or append it. -/
def insert_agent_entry : AgentRoster → Nat → ManagedAgent → AgentRoster
  | [], agent_id, agent => [(agent_id, agent)]
  | (k, v) :: rest, agent_id, agent =>
    if k == agent_id then (agent_id, agent) :: rest
    else (k, v) :: insert_agent_entry rest agent_id agent

/-- `AgentManager::assign_agent` (agent_manager.rs:58-72): insert (or
overwrite) a roster entry with status `Assigned`. -/
def assign_agent (roster : AgentRoster) (agent_id : Nat) (role : String)
    (tasks : List String) : AgentRoster :=
  insert_agent_entry roster agent_id
    { id := agent_id, role := role, status := AgentStatus.Assigned,
      assigned_tasks := tasks }

/-- `AgentManager::remove_agent` (agent_manager.rs:74-82): delete the
entry and report the removed agent's role. -/
def remove_agent (roster : AgentRoster) (agent_id : Nat) :
    AgentRoster × Option String :=
  ((List.filter (fun p => !(p.1 == agent_id)) roster),
   ((List.find? (fun p => p.1 == agent_id) roster).map (fun p => p.2.role)))

/-- `AgentManager::pause_all_agents` (agent_manager.rs:84-90): set every
agent's status to `Paused`, whatever it was. -/
def pause_all_agents (roster : AgentRoster) : AgentRoster :=
  List.map (fun p => (p.1, { p.2 with status := AgentStatus.Paused })) roster

/-- `AgentManager::resume_all_agents` (agent_manager.rs:92-100): set the
status of every currently `Paused` agent to `Active`. -/
def resume_all_agents (roster : AgentRoster) : AgentRoster :=
  List.map (fun p =>
    if p.2.status = AgentStatus.Paused then
      (p.1, { p.2 with status := AgentStatus.Active })
    else p) roster

/-- `AgentManager::finalize_all_agents` (agent_manager.rs:102-108): set
every agent's status to `Completed`. -/
def finalize_all_agents (roster : AgentRoster) : AgentRoster :=
  List.map (fun p => (p.1, { p.2 with status := AgentStatus.Completed })) roster

/-- The AgentManager operations the claim ranges over. -/
inductive AgentOp where
  | assign (agent_id : Nat) (role : String) (tasks : List String)
  | remove (agent_id : Nat)
  | pauseAll
  | resumeAll
deriving DecidableEq, Repr

/-- Apply one operation to the roster (dropping `remove_agent`'s report). -/
def applyAgentOp (roster : AgentRoster) : AgentOp → AgentRoster
  | .assign agent_id role tasks => assign_agent roster agent_id role tasks
  | .remove agent_id => (remove_agent roster agent_id).1
  | .pauseAll => pause_all_agents roster
  | .resumeAll => resume_all_agents roster

/-- Apply a sequence of operations in order. -/
def applyAgentOps (roster : AgentRoster) (ops : List AgentOp) : AgentRoster :=
  ops.foldl applyAgentOp roster

/-- Every agent of the roster is `Completed`. -/
def AllCompleted (roster : AgentRoster) : Prop :=
  ∀ p ∈ roster, (Prod.snd p).status = AgentStatus.Completed

end Coordinator

open Orchestrator

/-- C1. `can_allocate_workflow` returns true iff `active_workflows <
max_workflows`, at least one CPU core is available and at least 512 MB of
memory is available; in particular it is false whenever `active_workflows
= max_workflows`, regardless of CPU/memory headroom. -/
theorem c1_can_allocate_workflow_iff (s : ResourceState) :
    (can_allocate_workflow s = true ↔
      (s.active_workflows < s.max_workflows ∧
       (1 : ℚ) ≤ s.available_cpu_cores ∧
       512 ≤ s.available_memory_mb)) ∧
    (s.active_workflows = s.max_workflows → can_allocate_workflow s = false) := by
  constructor
  · simp [can_allocate_workflow, and_assoc]
  · intro h
    simp [can_allocate_workflow, h]

/-- C1 witness: a fully saturated state (`active_workflows = max_workflows`)
with ample CPU and memory headroom is rejected. -/
theorem c1_can_allocate_workflow_iff_witness :
    can_allocate_workflow
      { total_cpu_cores := 64
        available_cpu_cores := 64
        total_memory_mb := 65536
        available_memory_mb := 65536
        active_agents := 0
        max_agents := 100
        active_workflows := 20
        max_workflows := 20
        utilization_history := [] } = false :=
  (c1_can_allocate_workflow_iff _).2 rfl

/-- C2. Allocate/deallocate round trip: whenever `allocate_resources`
accepts a request, immediately deallocating the returned allocation
restores the `ResourceState` exactly — CPU, memory, agent count and
workflow count all return to their prior values, with no drift. -/
theorem c2_allocate_deallocate_round_trip (s : ResourceState) (r : ResourceRequest)
    (a : ResourceAllocation) (s1 : ResourceState)
    (h : allocate_resources s r = some (a, s1)) :
    deallocate_resources s1 a = s := by
  obtain ⟨tc, ac, tm, am, aa, ma, aw, mw, hist⟩ := s
  rw [allocate_resources] at h
  split at h
  · exact absurd h (by simp)
  · rename_i hguard
    push_neg at hguard
    simp only [Option.some.injEq, Prod.mk.injEq] at h
    obtain ⟨ha, hs1⟩ := h
    subst ha hs1
    dsimp only at hguard
    obtain ⟨hcpu, hmem, hag, hwf⟩ := hguard
    simp only [deallocate_resources]
    congr 1 <;> first | omega | ring

/-- C2 witness: a concrete accepted allocation round-trips to the initial
state. -/
theorem c2_allocate_deallocate_round_trip_witness :
    deallocate_resources
      { total_cpu_cores := 8, available_cpu_cores := 6
        total_memory_mb := 16384, available_memory_mb := 15360
        active_agents := 3, max_agents := 100
        active_workflows := 1, max_workflows := 20
        utilization_history := [] }
      { workflow_id := 7, allocated_cpu := 2, allocated_memory := 1024,
        allocated_agents := 3 } =
      { total_cpu_cores := 8, available_cpu_cores := 8
        total_memory_mb := 16384, available_memory_mb := 16384
        active_agents := 0, max_agents := 100
        active_workflows := 0, max_workflows := 20
        utilization_history := [] } :=
  c2_allocate_deallocate_round_trip
    { total_cpu_cores := 8, available_cpu_cores := 8
      total_memory_mb := 16384, available_memory_mb := 16384
      active_agents := 0, max_agents := 100
      active_workflows := 0, max_workflows := 20
      utilization_history := [] }
    { workflow_id := 7, cpu_cores := 2, memory_mb := 1024, agent_count := 3
      estimated_duration_hours := 1, priority := WorkflowPriority.Medium }
    _ _ (by norm_num [allocate_resources])

/-- The capacity-ledger invariant of the spec: availability never exceeds
the configured totals, for CPU and for memory. -/
def LedgerInv (s : ResourceState) : Prop :=
  s.available_cpu_cores ≤ s.total_cpu_cores ∧
  s.available_memory_mb ≤ s.total_memory_mb

/-- C3 counterexample: `deallocate_resources` applied to an allocation that
was never debited from the ledger pushes `available_cpu_cores` above
`total_cpu_cores`, so the claimed preservation of `available ≤ total` by
every operation fails at this concrete input. -/
theorem c3_deallocate_breaks_ledger_inv :
    LedgerInv
      { total_cpu_cores := 4, available_cpu_cores := 4
        total_memory_mb := 1024, available_memory_mb := 1024
        active_agents := 0, max_agents := 100
        active_workflows := 1, max_workflows := 20
        utilization_history := [] } ∧
    ¬ LedgerInv
      (deallocate_resources
        { total_cpu_cores := 4, available_cpu_cores := 4
          total_memory_mb := 1024, available_memory_mb := 1024
          active_agents := 0, max_agents := 100
          active_workflows := 1, max_workflows := 20
          utilization_history := [] }
        { workflow_id := 9, allocated_cpu := 1, allocated_memory := 0,
          allocated_agents := 0 }) := by
  constructor
  · constructor <;> norm_num [LedgerInv]
  · intro hinv
    have := hinv.1
    norm_num [deallocate_resources] at this

/-- C3 as amended: starting from a state with `available ≤ total`,
`available ≤ total` is preserved by `allocate_resources` for requests
with nonnegative CPU demand, by `deallocate_resources` for allocations
that fit inside the outstanding ledger (allocated CPU at most
`total - available` CPU, allocated memory plus available memory at most
total memory), by `scale` unconditionally, and by
`update_resource_metrics` for nonnegative sampled utilizations whenever
the CPU total is nonnegative. -/
theorem c3_ledger_inv_preserved (s : ResourceState) (hinv : LedgerInv s) :
    (∀ r a s1, 0 ≤ r.cpu_cores → allocate_resources s r = some (a, s1) → LedgerInv s1) ∧
    (∀ a : ResourceAllocation,
      a.allocated_cpu ≤ s.total_cpu_cores - s.available_cpu_cores →
      a.allocated_memory + s.available_memory_mb ≤ s.total_memory_mb →
      LedgerInv (deallocate_resources s a)) ∧
    (∀ t m, LedgerInv (scale s t m)) ∧
    (∀ cu mu, 0 ≤ s.total_cpu_cores → 0 ≤ cu → 0 ≤ mu →
      LedgerInv (update_resource_metrics s cu mu)) := by
  obtain ⟨hcpu, hmem⟩ := hinv
  refine ⟨?_, ?_, ?_, ?_⟩
  · intro r a s1 hr h
    rw [allocate_resources] at h
    split at h
    · exact absurd h (by simp)
    · simp only [Option.some.injEq, Prod.mk.injEq] at h
      obtain ⟨-, hs1⟩ := h
      subst hs1
      exact ⟨by simpa using by linarith, by simp; omega⟩
  · intro a hacpu hamem
    exact ⟨by simp [deallocate_resources]; linarith, by simp [deallocate_resources]; omega⟩
  · intro t m
    exact ⟨hcpu, hmem⟩
  · intro cu mu htot hcu hmu
    constructor
    · show s.total_cpu_cores * (1 - cu) ≤ s.total_cpu_cores
      nlinarith
    · show (Int.floor ((s.total_memory_mb : ℚ) * (1 - mu))).toNat ≤ s.total_memory_mb
      rw [Int.toNat_le]
      have hle : (s.total_memory_mb : ℚ) * (1 - mu) ≤ (s.total_memory_mb : ℚ) := by
        nlinarith [Nat.cast_nonneg (α := ℚ) s.total_memory_mb]
      have hfl : ((Int.floor ((s.total_memory_mb : ℚ) * (1 - mu)) : ℚ)) ≤
          (s.total_memory_mb : ℚ) :=
        (Int.floor_le ((s.total_memory_mb : ℚ) * (1 - mu))).trans hle
      exact_mod_cast hfl

/-- C3 witness: the amended preservation statement, instantiated at a
concrete in-invariant state with a concrete request, fitting allocation,
scaling order and metrics sample. -/
theorem c3_ledger_inv_preserved_witness :
    LedgerInv (scale
      { total_cpu_cores := 4, available_cpu_cores := 2
        total_memory_mb := 1024, available_memory_mb := 512
        active_agents := 0, max_agents := 100
        active_workflows := 1, max_workflows := 20
        utilization_history := [] } 10 5) ∧
    LedgerInv (deallocate_resources
      { total_cpu_cores := 4, available_cpu_cores := 2
        total_memory_mb := 1024, available_memory_mb := 512
        active_agents := 0, max_agents := 100
        active_workflows := 1, max_workflows := 20
        utilization_history := [] }
      { workflow_id := 3, allocated_cpu := 2, allocated_memory := 512,
        allocated_agents := 0 }) := by
  have h := c3_ledger_inv_preserved
    { total_cpu_cores := 4, available_cpu_cores := 2
      total_memory_mb := 1024, available_memory_mb := 512
      active_agents := 0, max_agents := 100
      active_workflows := 1, max_workflows := 20
      utilization_history := [] } (by constructor <;> norm_num [LedgerInv])
  exact ⟨h.2.2.1 10 5,
    h.2.1 { workflow_id := 3, allocated_cpu := 2, allocated_memory := 512,
            allocated_agents := 0 } (by norm_num) (by norm_num)⟩

open Coordinator in
/-- C4. No phase skipping: `can_transition_to` returns true only when the
current phase's requirements are met and the target is the adjacent next
phase or the current phase itself; for every non-adjacent, non-identity
pair it returns false regardless of the requirement flags. -/
theorem c4_no_phase_skipping (st : PhaseState) (t : WorkflowPhase) :
    (can_transition_to st t = true →
      phase_requirements_met st = true ∧
      (adjacentForward st.current_phase t = true ∨ st.current_phase = t)) ∧
    (adjacentForward st.current_phase t = false → st.current_phase ≠ t →
      can_transition_to st t = false) := by
  obtain ⟨c, reqs⟩ := st
  cases c <;> cases t <;>
    simp [can_transition_to, phase_requirements_met, adjacentForward] <;>
    intros <;> first | rfl | assumption

open Coordinator in
/-- C4 witness: from Planning with every requirement flag satisfied, the
skipping transition Planning → Tasks is rejected. -/
theorem c4_no_phase_skipping_witness :
    can_transition_to
      { current_phase := WorkflowPhase.Planning
        phase_requirements :=
          { planning := { objectives_defined := true, scope_documented := true
                          stakeholders_identified := true, timeline_estimated := true }
            requirements := { ears_format_used := true, functional_requirements := 3
                              non_functional_requirements := 2,
                              acceptance_criteria_defined := true }
            design := { architecture_documented := true, components_identified := true
                        interfaces_defined := true, data_flow_mapped := true }
            tasks := { tasks_broken_down := true, acceptance_criteria_per_task := true
                       dependencies_mapped := true, effort_estimated := true }
            execute := { tdd_cycle_followed := true, tests_written_first := true
                         code_reviewed := true, refactoring_completed := true } } }
      WorkflowPhase.Tasks = false :=
  (c4_no_phase_skipping _ _).2 rfl (by decide)

/-- Helper: a queue scan fails exactly when no entry of the queue is ready. -/
theorem find_in_queue_eq_none (m : WorkflowManager) (q : List Nat) :
    find_in_queue m q = none ↔ ∀ id ∈ q, queue_entry_ready m id = false := by
  simp [find_in_queue, List.find?_eq_none]

/-- Helper: a successful queue scan returns a ready member of the queue. -/
theorem find_in_queue_eq_some (m : WorkflowManager) (q : List Nat) (id : Nat)
    (h : find_in_queue m q = some id) : id ∈ q ∧ queue_entry_ready m id = true :=
  ⟨List.mem_of_find?_eq_some h, List.find?_some h⟩

/-- Helper: a tier has no ready entry exactly when its scan fails. -/
theorem tier_has_ready_eq_false (m : WorkflowManager) (p : WorkflowPriority) :
    tier_has_ready m p = false ↔ find_in_queue m (m.workflow_queue p) = none := by
  simp [tier_has_ready, find_in_queue, List.find?_eq_none, List.any_eq_false]

/-- Helper: the scheduler returns nothing exactly when all four scans fail. -/
theorem get_next_workflow_eq_none (m : WorkflowManager) :
    get_next_workflow_by_priority m = none ↔
      (find_in_queue m (m.workflow_queue WorkflowPriority.Critical) = none ∧
       find_in_queue m (m.workflow_queue WorkflowPriority.High) = none ∧
       find_in_queue m (m.workflow_queue WorkflowPriority.Medium) = none ∧
       find_in_queue m (m.workflow_queue WorkflowPriority.Low) = none) := by
  rw [get_next_workflow_by_priority]
  cases hc : find_in_queue m (m.workflow_queue WorkflowPriority.Critical) <;>
    cases hh : find_in_queue m (m.workflow_queue WorkflowPriority.High) <;>
      cases hm : find_in_queue m (m.workflow_queue WorkflowPriority.Medium) <;>
        cases hl : find_in_queue m (m.workflow_queue WorkflowPriority.Low) <;>
          simp

/-- C5 counterexample: workflow 1 is `Queued` and lists dependency 99,
which is absent from the registry, so by the claim no queued workflow has
all of its dependencies `Completed` and the scheduler should return
none — but the code treats the absent dependency as satisfied and
returns workflow 1. -/
theorem c5_absent_dependency_is_scheduled :
    absentDepManager.workflows =
      [(1, { id := 1, status := WorkflowStatus.Queued, dependencies := [99] })] ∧
    absentDepManager.getWorkflow 99 = none ∧
    get_next_workflow_by_priority absentDepManager = some 1 :=
  ⟨rfl, rfl, rfl⟩

/-- C5 as amended: call a queue entry ready when it names a registered
workflow that is `Queued` and each of whose dependencies is either
`Completed` or absent from the registry (the code counts a missing
dependency as completed).  Then `get_next_workflow_by_priority` always
returns a ready entry of a tier such that every strictly higher tier has
no ready entry, and it returns none exactly when no tier has a ready
entry. -/
theorem c5_priority_scheduling (m : WorkflowManager) :
    (∀ id, get_next_workflow_by_priority m = some id →
      queue_entry_ready m id = true ∧
      ∃ p, id ∈ m.workflow_queue p ∧
        ∀ q, priorityRank p < priorityRank q → tier_has_ready m q = false) ∧
    (get_next_workflow_by_priority m = none ↔ ∀ p, tier_has_ready m p = false) := by
  constructor
  · intro id h
    rw [get_next_workflow_by_priority] at h
    cases hc : find_in_queue m (m.workflow_queue WorkflowPriority.Critical) with
    | some j =>
      rw [hc] at h
      obtain rfl : j = id := Option.some.inj h
      obtain ⟨hmem, hready⟩ := find_in_queue_eq_some _ _ _ hc
      refine ⟨hready, WorkflowPriority.Critical, hmem, ?_⟩
      intro q hq
      cases q <;> simp [priorityRank] at hq
    | none =>
      rw [hc] at h
      cases hh : find_in_queue m (m.workflow_queue WorkflowPriority.High) with
      | some j =>
        rw [hh] at h
        obtain rfl : j = id := Option.some.inj h
        obtain ⟨hmem, hready⟩ := find_in_queue_eq_some _ _ _ hh
        refine ⟨hready, WorkflowPriority.High, hmem, ?_⟩
        intro q hq
        cases q with
        | Critical => exact (tier_has_ready_eq_false m _).mpr hc
        | High => simp [priorityRank] at hq
        | Medium => simp [priorityRank] at hq
        | Low => simp [priorityRank] at hq
      | none =>
        rw [hh] at h
        cases hm : find_in_queue m (m.workflow_queue WorkflowPriority.Medium) with
        | some j =>
          rw [hm] at h
          obtain rfl : j = id := Option.some.inj h
          obtain ⟨hmem, hready⟩ := find_in_queue_eq_some _ _ _ hm
          refine ⟨hready, WorkflowPriority.Medium, hmem, ?_⟩
          intro q hq
          cases q with
          | Critical => exact (tier_has_ready_eq_false m _).mpr hc
          | High => exact (tier_has_ready_eq_false m _).mpr hh
          | Medium => simp [priorityRank] at hq
          | Low => simp [priorityRank] at hq
        | none =>
          rw [hm] at h
          obtain ⟨hmem, hready⟩ := find_in_queue_eq_some _ _ _ h
          refine ⟨hready, WorkflowPriority.Low, hmem, ?_⟩
          intro q hq
          cases q with
          | Critical => exact (tier_has_ready_eq_false m _).mpr hc
          | High => exact (tier_has_ready_eq_false m _).mpr hh
          | Medium => exact (tier_has_ready_eq_false m _).mpr hm
          | Low => simp [priorityRank] at hq
  · rw [get_next_workflow_eq_none]
    constructor
    · rintro ⟨h1, h2, h3, h4⟩ p
      cases p with
      | Critical => exact (tier_has_ready_eq_false m _).mpr h1
      | High => exact (tier_has_ready_eq_false m _).mpr h2
      | Medium => exact (tier_has_ready_eq_false m _).mpr h3
      | Low => exact (tier_has_ready_eq_false m _).mpr h4
    · intro hall
      exact ⟨(tier_has_ready_eq_false m _).mp (hall _),
             (tier_has_ready_eq_false m _).mp (hall _),
             (tier_has_ready_eq_false m _).mp (hall _),
             (tier_has_ready_eq_false m _).mp (hall _)⟩

/-- C5 witness: on a registry whose single dependency-free queued
workflow sits in the High queue, the scheduler's answer (workflow 1) is
ready and comes from a tier with no ready entry above it. -/
theorem c5_priority_scheduling_witness :
    queue_entry_ready readyHighManager 1 = true ∧
    ∃ p, 1 ∈ readyHighManager.workflow_queue p ∧
      ∀ q, priorityRank p < priorityRank q → tier_has_ready readyHighManager q = false :=
  (c5_priority_scheduling readyHighManager).1 1 rfl

open Coordinator in
/-- C6 counterexample: for the concrete Requirements-phase coordinator
with `ears_format_used = false`, the `TransitionPhase(Design)` command is
rejected with the workflow staying in Requirements — but no
`QualityGateFailed` event is emitted (the claim asserts one is), because
the phase-requirements check fails before the quality gate is reached. -/
theorem c6_ears_missing_emits_no_event :
    validate_phase_completion default_minimum_score earsMissingCoordinator.checks
        WorkflowPhase.Requirements = (false, 70) ∧
    (transition_phase earsMissingCoordinator WorkflowPhase.Design).ok = false ∧
    (transition_phase earsMissingCoordinator WorkflowPhase.Design).state =
      earsMissingCoordinator ∧
    (transition_phase earsMissingCoordinator WorkflowPhase.Design).events = [] := by
  refine ⟨?_, ?_, ?_, ?_⟩ <;>
    simp [validate_phase_completion, validate_requirements_phase, transition_phase,
          earsMissingCoordinator, QualityChecks.defaults, default_minimum_score,
          can_transition_to, RequirementsPhaseRequirements.all_met] <;>
    norm_num

open Coordinator in
/-- C6 as amended: with the default minimum score 75, a failing EARS
check caps the Requirements validation at 70 and fails it; a
Requirements-phase coordinator whose `ears_format_used` requirement flag
is false has every `TransitionPhase` command rejected with no change of
state and *no* event emitted (the phase-requirements check rejects before
the quality gate); `QualityGateFailed` is emitted exactly when the phase
requirements pass but the quality validation fails. -/
theorem c6_quality_gate_on_missing_ears :
    (∀ c : QualityChecks, c.uses_ears_format = false →
      (validate_phase_completion default_minimum_score c WorkflowPhase.Requirements).2 ≤ 70 ∧
      (validate_phase_completion default_minimum_score c WorkflowPhase.Requirements).1 = false) ∧
    (∀ (st : CoordinatorState) (target : WorkflowPhase),
      st.phase_state.current_phase = WorkflowPhase.Requirements →
      st.phase_state.phase_requirements.requirements.ears_format_used = false →
      (transition_phase st target).state = st ∧
      (transition_phase st target).ok = false ∧
      (transition_phase st target).events = []) ∧
    (∀ (st : CoordinatorState) (target : WorkflowPhase),
      can_transition_to st.phase_state target = true →
      (validate_phase_completion st.minimum_score st.checks
        st.phase_state.current_phase).1 = false →
      (transition_phase st target).events = [CoordinatorEvent.QualityGateFailed] ∧
      (transition_phase st target).ok = false) := by
  refine ⟨?_, ?_, ?_⟩
  · intro c h
    simp only [validate_phase_completion, validate_requirements_phase, h, if_false,
               Bool.false_eq_true]
    cases hc : c.has_complete_requirements <;> simp <;> norm_num [default_minimum_score]
  · intro st target h1 h2
    have hreq : can_transition_to st.phase_state target = false := by
      simp [can_transition_to, h1, RequirementsPhaseRequirements.all_met, h2]
    simp [transition_phase, hreq]
  · intro st target h1 h2
    simp [transition_phase, h1, h2]

open Coordinator in
/-- C6 witness: the amended statement instantiated at the concrete
EARS-missing coordinator: its validation fails under the default minimum
score and its transition command to Design is rejected with no events. -/
theorem c6_quality_gate_on_missing_ears_witness :
    ((validate_phase_completion default_minimum_score earsMissingCoordinator.checks
        WorkflowPhase.Requirements).1 = false ∧
     (validate_phase_completion default_minimum_score earsMissingCoordinator.checks
        WorkflowPhase.Requirements).2 ≤ 70) ∧
    (transition_phase earsMissingCoordinator WorkflowPhase.Design).ok = false ∧
    (transition_phase earsMissingCoordinator WorkflowPhase.Design).events = [] :=
  ⟨⟨(c6_quality_gate_on_missing_ears.1 earsMissingCoordinator.checks rfl).2,
    (c6_quality_gate_on_missing_ears.1 earsMissingCoordinator.checks rfl).1⟩,
   (c6_quality_gate_on_missing_ears.2.1 earsMissingCoordinator WorkflowPhase.Design
      rfl rfl).2.1,
   (c6_quality_gate_on_missing_ears.2.1 earsMissingCoordinator WorkflowPhase.Design
      rfl rfl).2.2⟩

/-- C7. `escalate_decision` returns the chain configured for the decision
type; when none is configured it returns exactly the one-element list
holding the master orchestrator id, which therefore is non-empty and ends
at the top authority; with the default matrix, every decision type
without an explicitly configured path escalates to the master. -/
theorem c7_escalation_default_target (h : LeadershipHierarchy) (d : DecisionType) (r : Nat) :
    (∀ p, h.decision_matrix.escalation_paths.find? (fun q => q.1 == d) = some p →
      escalate_decision h d r = p.2) ∧
    (h.decision_matrix.escalation_paths.find? (fun q => q.1 == d) = none →
      escalate_decision h d r = [h.master_id] ∧
      (escalate_decision h d r).getLast? = some h.master_id ∧
      escalate_decision h d r ≠ []) ∧
    (∀ master, d ≠ DecisionType.WorkflowExecution →
      d ≠ DecisionType.CrossWorkflowPriorities →
      escalate_decision ⟨master, DecisionMatrix.new_with_defaults⟩ d r = [master]) := by
  refine ⟨?_, ?_, ?_⟩
  · intro p hp
    simp [escalate_decision, hp]
  · intro hn
    simp [escalate_decision, hn]
  · intro master h1 h2
    cases d <;> first | rfl | exact absurd rfl h1 | exact absurd rfl h2

/-- C7 witness: escalating `TechnicalArchitecture` (no configured path in
the default matrix) from master id 42 yields `[42]`. -/
theorem c7_escalation_default_target_witness :
    escalate_decision ⟨42, DecisionMatrix.new_with_defaults⟩
      DecisionType.TechnicalArchitecture 7 = [42] :=
  (c7_escalation_default_target ⟨42, DecisionMatrix.new_with_defaults⟩
    DecisionType.TechnicalArchitecture 7).2.2 42 (by decide) (by decide)

open Coordinator in
/-- C8 counterexample: acknowledging message 1 twice is not a no-op — the
second call leaves the record unchanged but increments
`messages_acknowledged` again (from 1 to 2). -/
theorem c8_double_acknowledge_bumps_counter :
    (acknowledge_message
      { communication_log := [{ id := 1, acknowledged := false }]
        messages_acknowledged := 0 } 1).messages_acknowledged = 1 ∧
    (acknowledge_message (acknowledge_message
      { communication_log := [{ id := 1, acknowledged := false }]
        messages_acknowledged := 0 } 1) 1).messages_acknowledged = 2 ∧
    acknowledge_message (acknowledge_message
      { communication_log := [{ id := 1, acknowledged := false }]
        messages_acknowledged := 0 } 1) 1 ≠ acknowledge_message
      { communication_log := [{ id := 1, acknowledged := false }]
        messages_acknowledged := 0 } 1 := by
  refine ⟨rfl, rfl, ?_⟩
  intro h
  have := congrArg CommState.messages_acknowledged h
  simp [acknowledge_message, set_ack_first] at this

open Coordinator in
/-- Helper: rewriting the first matching record does not change which ids
occur in the log. -/
theorem set_ack_first_any (l : List CommunicationRecord) (message_id : Nat) :
    (set_ack_first l message_id).any (fun r => r.id == message_id) =
      l.any (fun r => r.id == message_id) := by
  induction l with
  | nil => rfl
  | cons r rs ih =>
    by_cases h : r.id == message_id
    · simp [set_ack_first, h]
    · simp only [set_ack_first, h, if_neg, Bool.false_eq_true, not_false_eq_true,
                 List.any_cons, ih]

open Coordinator in
/-- Helper: rewriting the first matching record twice equals rewriting it
once. -/
theorem set_ack_first_idem (l : List CommunicationRecord) (message_id : Nat) :
    set_ack_first (set_ack_first l message_id) message_id =
      set_ack_first l message_id := by
  induction l with
  | nil => rfl
  | cons r rs ih =>
    by_cases h : r.id == message_id
    · simp [set_ack_first, h]
    · simp [set_ack_first, h, ih]

open Coordinator in
/-- Helper: when a matching record exists, after `set_ack_first` some
record with the id is acknowledged. -/
theorem set_ack_first_mem (l : List CommunicationRecord) (message_id : Nat)
    (h : l.any (fun r => r.id == message_id) = true) :
    ∃ r ∈ set_ack_first l message_id, r.id = message_id ∧ r.acknowledged = true := by
  induction l with
  | nil => simp at h
  | cons r rs ih =>
    by_cases hr : r.id == message_id
    · refine ⟨{ r with acknowledged := true }, ?_, ?_, rfl⟩
      · simp [set_ack_first, hr]
      · simpa using hr
    · simp only [List.any_cons, hr, Bool.false_or] at h
      obtain ⟨r2, hr2, hprop⟩ := ih h
      exact ⟨r2, by simp [set_ack_first, hr, hr2], hprop⟩

open Coordinator in
/-- C8 as amended: when a record with the id exists,
`acknowledge_message` acknowledges it and increments the
`messages_acknowledged` metric; acknowledging the same id a second time
leaves the log unchanged (the record update is idempotent) but
increments the metric again — the counter part of the claimed no-op does
not hold. -/
theorem c8_acknowledge_idempotent_log_counted_metric
    (st : CommState) (message_id : Nat) :
    (st.communication_log.any (fun r => r.id == message_id) = true →
      (∃ r ∈ (acknowledge_message st message_id).communication_log,
        r.id = message_id ∧ r.acknowledged = true) ∧
      (acknowledge_message st message_id).messages_acknowledged =
        st.messages_acknowledged + 1 ∧
      (acknowledge_message (acknowledge_message st message_id)
        message_id).messages_acknowledged = st.messages_acknowledged + 2) ∧
    (acknowledge_message (acknowledge_message st message_id)
      message_id).communication_log =
      (acknowledge_message st message_id).communication_log := by
  constructor
  · intro hfound
    have hfound2 : ((acknowledge_message st message_id).communication_log.any
        (fun r => r.id == message_id)) = true := by
      simp [acknowledge_message, hfound, set_ack_first_any]
    refine ⟨?_, ?_, ?_⟩
    · simp only [acknowledge_message, hfound, if_pos]
      exact set_ack_first_mem _ _ hfound
    · simp [acknowledge_message, hfound]
    · simp [acknowledge_message, hfound, set_ack_first_any]
  · by_cases hfound : st.communication_log.any (fun r => r.id == message_id) = true
    · simp [acknowledge_message, hfound, set_ack_first_any, set_ack_first_idem]
    · simp [acknowledge_message, hfound]

open Coordinator in
/-- C8 witness: the amended statement instantiated at a two-record log —
acknowledging id 5 acknowledges it, counts once, then counts again while
leaving the log fixed. -/
theorem c8_acknowledge_idempotent_log_counted_metric_witness :
    (∃ r ∈ (acknowledge_message
      { communication_log := [{ id := 4, acknowledged := false },
                              { id := 5, acknowledged := false }]
        messages_acknowledged := 3 } 5).communication_log,
      r.id = 5 ∧ r.acknowledged = true) ∧
    (acknowledge_message
      { communication_log := [{ id := 4, acknowledged := false },
                              { id := 5, acknowledged := false }]
        messages_acknowledged := 3 } 5).messages_acknowledged = 4 ∧
    (acknowledge_message (acknowledge_message
      { communication_log := [{ id := 4, acknowledged := false },
                              { id := 5, acknowledged := false }]
        messages_acknowledged := 3 } 5) 5).messages_acknowledged = 5 :=
  (c8_acknowledge_idempotent_log_counted_metric
    { communication_log := [{ id := 4, acknowledged := false },
                            { id := 5, acknowledged := false }]
      messages_acknowledged := 3 } 5).1 rfl

open Coordinator in
/-- C9 counterexample: after `finalize_all_agents` has marked agent 1
`Completed`, a subsequent `pause_all_agents` sets it to `Paused` — an
operation after finalization does change a status away from `Completed`,
so finalization is not terminal as claimed. -/
theorem c9_pause_after_finalize_mutates :
    applyAgentOp
      (finalize_all_agents
        [(1, { id := 1, role := "dev", status := AgentStatus.Active,
               assigned_tasks := [] })]) AgentOp.pauseAll =
      [(1, { id := 1, role := "dev", status := AgentStatus.Paused,
             assigned_tasks := [] })] ∧
    ¬ AllCompleted (applyAgentOp
      (finalize_all_agents
        [(1, { id := 1, role := "dev", status := AgentStatus.Active,
               assigned_tasks := [] })]) AgentOp.pauseAll) := by
  constructor
  · rfl
  · intro h
    have := h (1, { id := 1, role := "dev", status := AgentStatus.Paused,
                    assigned_tasks := [] }) (by simp [applyAgentOp,
                      finalize_all_agents, pause_all_agents])
    simp at this

open Coordinator in
/-- Helper: finalization completes every agent. -/
theorem allCompleted_finalize (roster : AgentRoster) :
    AllCompleted (finalize_all_agents roster) := by
  intro p hp
  simp only [finalize_all_agents, List.mem_map] at hp
  obtain ⟨q, -, rfl⟩ := hp
  rfl

open Coordinator in
/-- Helper: `resume_all_agents` only touches `Paused` agents, so an
all-`Completed` roster is untouched. -/
theorem allCompleted_resume (roster : AgentRoster) (h : AllCompleted roster) :
    AllCompleted (resume_all_agents roster) := by
  intro p hp
  simp only [resume_all_agents, List.mem_map] at hp
  obtain ⟨q, hq, rfl⟩ := hp
  have hst := h q hq
  rw [hst]
  simpa using hst

open Coordinator in
/-- Helper: removing an agent keeps the remaining roster all-`Completed`. -/
theorem allCompleted_remove (roster : AgentRoster) (agent_id : Nat)
    (h : AllCompleted roster) : AllCompleted (remove_agent roster agent_id).1 := by
  intro p hp
  exact h p (List.mem_of_mem_filter hp)

open Coordinator in
/-- C9 as amended: `finalize_all_agents` marks every agent `Completed`,
and the roster stays all-`Completed` under every subsequent sequence of
`resume_all_agents` and `remove_agent` operations; it does *not* stay so
under `pause_all_agents` (which re-statuses every agent to `Paused`) or
`assign_agent` on an existing id (which overwrites it as `Assigned`). -/
theorem c9_finalize_terminal_for_resume_remove :
    (∀ roster : AgentRoster, AllCompleted (finalize_all_agents roster)) ∧
    (∀ (roster : AgentRoster) (ops : List AgentOp),
      (∀ op ∈ ops, op = AgentOp.resumeAll ∨ ∃ agent_id, op = AgentOp.remove agent_id) →
      AllCompleted roster → AllCompleted (applyAgentOps roster ops)) := by
  refine ⟨allCompleted_finalize, ?_⟩
  intro roster ops
  induction ops generalizing roster with
  | nil =>
    intro _ hall
    simpa [applyAgentOps] using hall
  | cons op rest ih =>
    intro hops hall
    have hop := hops op (List.mem_cons_self op rest)
    have hrest : ∀ o ∈ rest, o = AgentOp.resumeAll ∨ ∃ agent_id, o = AgentOp.remove agent_id :=
      fun o ho => hops o (List.mem_cons_of_mem op ho)
    show AllCompleted (applyAgentOps (applyAgentOp roster op) rest)
    apply ih _ hrest
    rcases hop with rfl | ⟨agent_id, rfl⟩
    · exact allCompleted_resume roster hall
    · exact allCompleted_remove roster agent_id hall

open Coordinator in
/-- C9 witness: finalize a one-agent roster, then resume-all and remove a
missing id — the roster stays all-`Completed`. -/
theorem c9_finalize_terminal_for_resume_remove_witness :
    AllCompleted (applyAgentOps
      (finalize_all_agents
        [(1, { id := 1, role := "dev", status := AgentStatus.Active,
               assigned_tasks := [] })])
      [AgentOp.resumeAll, AgentOp.remove 2]) :=
  c9_finalize_terminal_for_resume_remove.2
    (finalize_all_agents
      [(1, { id := 1, role := "dev", status := AgentStatus.Active,
             assigned_tasks := [] })])
    [AgentOp.resumeAll, AgentOp.remove 2]
    (by
      intro op hop
      simp only [List.mem_cons, List.not_mem_nil, or_false] at hop
      rcases hop with rfl | rfl
      · exact Or.inl rfl
      · exact Or.inr ⟨2, rfl⟩)
    (c9_finalize_terminal_for_resume_remove.1
      [(1, { id := 1, role := "dev", status := AgentStatus.Active,
             assigned_tasks := [] })])

/-- Helper: cancelling every key currently in the registry leaves the
registry empty, whatever orchestrator state travels alongside. -/
theorem foldl_cancel_all_keys (ids : List Nat) :
    ∀ o : MasterOrchestrator, (∀ p ∈ o.workflows, p.1 ∈ ids) →
      (ids.foldl cancel_workflow o).workflows = [] := by
  induction ids with
  | nil =>
    intro o h
    cases ho : o.workflows with
    | nil => simp [List.foldl_nil, ho]
    | cons p rest =>
      have := h p (by rw [ho]; exact List.mem_cons_self p rest)
      simp at this
  | cons i is ih =>
    intro o h
    rw [List.foldl_cons]
    apply ih
    intro p hp
    have hp2 : p ∈ o.workflows ∧ (!(p.1 == i)) = true := by
      simpa [cancel_workflow] using List.mem_filter.mp hp
    have hmem := h p hp2.1
    rcases List.mem_cons.mp hmem with h1 | h1
    · exfalso
      have := hp2.2
      rw [h1] at this
      simp at this
    · exact h1

/-- C10. `emergency_shutdown` cancels (and removes) every workflow before
building the alert, so the emitted `EmergencyAlert` is always `Critical`
with an empty `affected_workflows` list, and the registry is empty
afterwards, for every starting registry contents. -/
theorem c10_emergency_shutdown_empty_alert (o : MasterOrchestrator) :
    (emergency_shutdown o).1.workflows = [] ∧
    (emergency_shutdown o).2.affected_workflows = [] ∧
    (emergency_shutdown o).2.severity = AlertSeverity.Critical := by
  have hempty : ((o.workflows.map Prod.fst).foldl cancel_workflow
      { o with state := { o.state with
          status := OrchestratorStatus.Shutdown } }).workflows = [] := by
    apply foldl_cancel_all_keys
    intro p hp
    exact List.mem_map_of_mem Prod.fst hp
  refine ⟨?_, ?_, ?_⟩
  · simpa [emergency_shutdown] using hempty
  · simp [emergency_shutdown, hempty]
  · simp [emergency_shutdown]
